import Mathlib

/-!
Verification of `toolbox.asyncio.pattern.ClassTask` (src/toolbox/asyncio/pattern.py).

`ClassTask` wraps a single awaitable entry-point and offers `start()`, `stop()`
and an async context manager.  We embed the observable state of the wrapper and
of the one asyncio task handle it owns, and model each method as a pure state
transformer that also emits the list of externally visible events it performs
(callback invocations, task creation, cancellation requests), in the order the
Python statements execute them.
-/

namespace Toolbox

/--
Observable state of an `asyncio.Task` handle, following the asyncio contract:
`Task.cancelled()` returns `true` only once the task is done because its
cancellation was processed by the event loop; immediately after `Task.cancel()`
the task is still pending (cancellation merely requested) and `cancelled()`
is still `false`.  A task can also finish normally, in which case `cancelled()`
stays `false` forever.
-/
inductive TaskStatus where
  | pending (cancelRequested : Bool)
  | doneNormal
  | doneCancelled
deriving DecidableEq, Repr

/-- `Task.cancelled()`: true exactly when the task finished by cancellation. -/
def TaskStatus.cancelledB : TaskStatus → Bool
  | .doneCancelled => true
  | _ => false

/-- Effect of `Task.cancel()` on the handle state: a pending task has its
cancellation requested (it does not become cancelled yet); a finished task is
unaffected. -/
def TaskStatus.requestCancel : TaskStatus → TaskStatus
  | .pending _ => .pending true
  | s => s

/-- One step of the external event loop honouring a requested cancellation:
a pending task whose cancellation was requested becomes `doneCancelled`.
This is an environment transition (the Scheduler collaborator), not code of
`ClassTask`. -/
def TaskStatus.confirmCancel : TaskStatus → TaskStatus
  | .pending true => .doneCancelled
  | s => s

/--
The per-instance fields of `ClassTask` set by `__init__`.  `_func` and `_loop`
are opaque references (modelled as identifiers), `_start_callback` and
`_end_callback` are optional references (`None` or a callback identifier),
`_run_forever` is the flag, `_task` the optional task handle.
-/
structure ClassTaskState where
  _func : Nat
  _start_callback : Option Nat
  _end_callback : Option Nat
  _run_forever : Bool
  _task : Option TaskStatus
  _loop : Nat
deriving DecidableEq, Repr

/-- Externally visible events performed by the methods of `ClassTask`. -/
inductive Event where
  | onStart
  | createTask
  | runForeverCall
  | onStop
  | cancelRequest
deriving DecidableEq, Repr

namespace ClassTask

/-- The `if` condition of `start()`:
`not self._task or self._task.cancelled()` (a `Task` object is always truthy,
so `not self._task` is exactly `self._task is None`). -/
def startGuard (c : ClassTaskState) : Bool :=
  match c._task with
  | none => true
  | some s => s.cancelledB

/-- The `if` condition of `stop()`:
`self._task and not self._task.cancelled()`. -/
def stopGuard (c : ClassTaskState) : Bool :=
  match c._task with
  | none => false
  | some s => !s.cancelledB

/--
`ClassTask.start()`: if the guard passes, call `self._start_callback()` when
present, then `self._loop.create_task(self._func())` (storing a fresh pending
handle), then `self._loop.run_forever()` when `_run_forever` is set.
Otherwise do nothing.  Returns the new state and the events in program order.
-/
def start (c : ClassTaskState) : ClassTaskState × List Event :=
  if startGuard c then
    ({ c with _task := some (TaskStatus.pending false) },
      (match c._start_callback with
        | some _ => [Event.onStart]
        | none => []) ++
      [Event.createTask] ++
      (if c._run_forever then [Event.runForeverCall] else []))
  else
    (c, [])

/--
`ClassTask.stop()`: if the guard passes, call `self._end_callback()` when
present, then `self._task.cancel()`.  Otherwise do nothing.
-/
def stop (c : ClassTaskState) : ClassTaskState × List Event :=
  if stopGuard c then
    ({ c with _task := c._task.map TaskStatus.requestCancel },
      (match c._end_callback with
        | some _ => [Event.onStop]
        | none => []) ++
      [Event.cancelRequest])
  else
    (c, [])

/-- `ClassTask.__aenter__`: calls `self.start()` and returns `self`. -/
def aenter (c : ClassTaskState) : ClassTaskState × List Event :=
  start c

/--
`ClassTask.__aexit__`: calls `self.stop()`, then returns
`self._task.cancelled()` if `self._task` is set, and otherwise falls off the
end of the function (an implicit `None`, modelled as `none`).
-/
def aexit (c : ClassTaskState) : ClassTaskState × Option Bool × List Event :=
  let r := stop c
  (r.1,
    match r.1._task with
    | some s => some s.cancelledB
    | none => none,
    r.2)

/--
`ClassTask.__init__`: stores the constructor arguments in the instance fields,
sets `self._task = None`, and calls `self.start()` as its last step when the
`start` argument is true.
-/
def init (func : Nat) (start_callback end_callback : Option Nat)
    (run_forever : Bool) (startArg : Bool) (loop : Nat) :
    ClassTaskState × List Event :=
  let c : ClassTaskState :=
    { _func := func
      _start_callback := start_callback
      _end_callback := end_callback
      _run_forever := run_forever
      _task := none
      _loop := loop }
  if startArg then start c else (c, [])

end ClassTask

/-- The event loop confirming a pending cancellation on a `ClassTask`'s stored
handle: environment step, leaves every other field alone. -/
def ClassTaskState.schedStep (c : ClassTaskState) : ClassTaskState :=
  { c with _task := c._task.map TaskStatus.confirmCancel }

/-- The constructor-fixed fields of two states agree (everything except
`_task`). -/
def configEq (a b : ClassTaskState) : Prop :=
  a._func = b._func ∧
  a._start_callback = b._start_callback ∧
  a._end_callback = b._end_callback ∧
  a._run_forever = b._run_forever ∧
  a._loop = b._loop

instance (a b : ClassTaskState) : Decidable (configEq a b) := by
  unfold configEq
  infer_instance

/-- A concrete instance state: both callbacks present, `run_forever` off,
no task handle yet (fresh instance). -/
def freshBoth : ClassTaskState :=
  { _func := 0, _start_callback := some 1, _end_callback := some 2,
    _run_forever := false, _task := none, _loop := 0 }

/-- A concrete instance state: both callbacks present, task actively running
(pending, no cancellation requested). -/
def runningBoth : ClassTaskState :=
  { _func := 0, _start_callback := some 1, _end_callback := some 2,
    _run_forever := false, _task := some (TaskStatus.pending false), _loop := 0 }

/--
C1: calling `start()` twice consecutively results in exactly one
`create_task` submission and exactly one `start_callback` invocation when the
first call proceeds, and the second `start()` is unconditionally a no-op:
the handle the first call stored (or left in place) is a task that is not
cancelled, so the guard fails on the second call.
-/
theorem start_twice_one_submission (c : ClassTaskState)
    (h : ClassTask.startGuard c = true) :
    (ClassTask.start (ClassTask.start c).1).2 = [] ∧
    ((ClassTask.start c).2 ++ (ClassTask.start (ClassTask.start c).1).2).count
      Event.createTask = 1 ∧
    ((ClassTask.start c).2 ++ (ClassTask.start (ClassTask.start c).1).2).count
      Event.onStart = (if c._start_callback.isSome then 1 else 0) := by
  rcases c with ⟨f, sc, ec, rf, t, lp⟩
  cases sc <;> cases rf <;>
    simp_all [ClassTask.start, ClassTask.startGuard, List.count_append,
      List.count_cons, TaskStatus.cancelledB]

/-- C1 witness: the double-start property instantiated on a fresh instance
with both callbacks present. -/
theorem start_twice_one_submission_witness :
    ClassTask.startGuard freshBoth = true ∧
    ((ClassTask.start (ClassTask.start freshBoth).1).2 = [] ∧
     ((ClassTask.start freshBoth).2 ++
        (ClassTask.start (ClassTask.start freshBoth).1).2).count
       Event.createTask = 1 ∧
     ((ClassTask.start freshBoth).2 ++
        (ClassTask.start (ClassTask.start freshBoth).1).2).count
       Event.onStart = (if freshBoth._start_callback.isSome then 1 else 0)) :=
  ⟨by decide, start_twice_one_submission freshBoth (by decide)⟩

/--
C3: `start()` replaces the stored handle only when it observed no handle or a
handle already reporting cancelled; a handle is never replaced while it is
still active (in particular, never while pending).
-/
theorem handle_replaced_only_when_idle_or_cancelled (c : ClassTaskState)
    (h : (ClassTask.start c).1._task ≠ c._task) :
    c._task = none ∨
      ∃ s, c._task = some s ∧ TaskStatus.cancelledB s = true := by
  rcases c with ⟨f, sc, ec, rf, t, lp⟩
  rcases t with _ | s
  · exact Or.inl rfl
  · rcases s with b | _ | _
    · exact absurd (by simp [ClassTask.start, ClassTask.startGuard,
        TaskStatus.cancelledB]) h
    · exact absurd (by simp [ClassTask.start, ClassTask.startGuard,
        TaskStatus.cancelledB]) h
    · exact Or.inr ⟨TaskStatus.doneCancelled, rfl, rfl⟩

/-- C3 witness: on a fresh instance the handle does change, and the instance
indeed had no handle. -/
theorem handle_replaced_only_when_idle_or_cancelled_witness :
    (ClassTask.start freshBoth).1._task ≠ freshBoth._task ∧
    (freshBoth._task = none ∨
      ∃ s, freshBoth._task = some s ∧ TaskStatus.cancelledB s = true) :=
  ⟨by decide, handle_replaced_only_when_idle_or_cancelled freshBoth (by decide)⟩

/--
C8: calling `stop()` on an instance on which `start()` has never run
(`self._task is None`) is a silent no-op: the state is unchanged and no
event — neither an `end_callback` invocation nor a cancellation request —
is emitted.
-/
theorem stop_never_started_noop (c : ClassTaskState)
    (h : c._task = none) :
    ClassTask.stop c = (c, []) := by
  rcases c with ⟨f, sc, ec, rf, t, lp⟩
  simp_all [ClassTask.stop, ClassTask.stopGuard]

/-- C8 witness: `stop()` on a fresh instance with both callbacks present. -/
theorem stop_never_started_noop_witness :
    freshBoth._task = none ∧ ClassTask.stop freshBoth = (freshBoth, []) :=
  ⟨rfl, stop_never_started_noop freshBoth rfl⟩

/--
C9: when the stored task has finished normally (`done` but not cancelled),
`stop()` still proceeds: its guard only checks `cancelled()`, which is false
for a normal completion, so it invokes the `end_callback` (when present) and
calls `cancel()` on the already-completed task.
-/
theorem stop_proceeds_on_done_normal (c : ClassTaskState)
    (h : c._task = some TaskStatus.doneNormal) :
    (ClassTask.stop c).2 =
      (if c._end_callback.isSome then [Event.onStop] else []) ++
        [Event.cancelRequest] ∧
    (ClassTask.stop c).2.count Event.cancelRequest = 1 := by
  rcases c with ⟨f, sc, ec, rf, t, lp⟩
  cases sc <;> cases ec <;>
    simp_all [ClassTask.stop, ClassTask.stopGuard, TaskStatus.cancelledB]

/-- C9 witness: `stop()` on an instance whose task completed normally. -/
theorem stop_proceeds_on_done_normal_witness :
    ({ runningBoth with
        _task := some TaskStatus.doneNormal : ClassTaskState })._task =
      some TaskStatus.doneNormal ∧
    ((ClassTask.stop { runningBoth with
        _task := some TaskStatus.doneNormal }).2 =
      (if ({ runningBoth with
              _task := some TaskStatus.doneNormal :
                ClassTaskState })._end_callback.isSome then
          [Event.onStop] else []) ++ [Event.cancelRequest] ∧
     (ClassTask.stop { runningBoth with
        _task := some TaskStatus.doneNormal }).2.count Event.cancelRequest
       = 1) :=
  ⟨rfl, stop_proceeds_on_done_normal
    { runningBoth with _task := some TaskStatus.doneNormal } rfl⟩

/-- True for every event except `createTask` (used to cut an event list at the
first task submission). -/
def notCreateTask : Event → Bool
  | Event.createTask => false
  | _ => true

/-- True for every event except `cancelRequest` (used to cut an event list at
the first cancellation request). -/
def notCancelRequest : Event → Bool
  | Event.cancelRequest => false
  | _ => true

/--
C2 counterexample: on an instance whose task is actively running, two
consecutive `stop()` calls with no intervening `start()` each proceed: the
first call only requests cancellation, `Task.cancelled()` is still false when
the second call runs its guard, so the `end_callback` is invoked twice and
cancellation is requested twice — the second `stop()` is not a no-op.
-/
theorem stop_twice_not_noop_cex :
    ((ClassTask.stop runningBoth).2 ++
      (ClassTask.stop (ClassTask.stop runningBoth).1).2).count
      Event.onStop = 2 ∧
    ((ClassTask.stop runningBoth).2 ++
      (ClassTask.stop (ClassTask.stop runningBoth).1).2).count
      Event.cancelRequest = 2 ∧
    (ClassTask.stop (ClassTask.stop runningBoth).1).2 ≠ [] := by
  decide

/--
C2 amended: for an instance whose task is pending, `stop()` proceeds once;
a further `stop()` is a no-op only after the event loop has processed the
requested cancellation, so that the handle reports `cancelled() = true`.
With that confirmation step in between, the two calls emit exactly one
cancellation request and exactly one `end_callback` invocation in total.
(Without it, each consecutive `stop()` proceeds again, see the
counterexample.)
-/
theorem stop_twice_after_cancel_confirmed (c : ClassTaskState) (b : Bool)
    (h : c._task = some (TaskStatus.pending b)) :
    (ClassTask.stop ((ClassTask.stop c).1.schedStep)).2 = [] ∧
    ((ClassTask.stop c).2 ++
      (ClassTask.stop ((ClassTask.stop c).1.schedStep)).2).count
      Event.cancelRequest = 1 ∧
    ((ClassTask.stop c).2 ++
      (ClassTask.stop ((ClassTask.stop c).1.schedStep)).2).count
      Event.onStop = (if c._end_callback.isSome then 1 else 0) := by
  rcases c with ⟨f, sc, ec, rf, t, lp⟩
  cases ec <;>
    simp_all [ClassTask.stop, ClassTask.stopGuard, ClassTaskState.schedStep,
      TaskStatus.cancelledB, TaskStatus.requestCancel, TaskStatus.confirmCancel,
      List.count_append, List.count_cons]

/-- C2 amended witness: the stop, confirm, stop sequence on a running
instance with both callbacks present. -/
theorem stop_twice_after_cancel_confirmed_witness :
    runningBoth._task = some (TaskStatus.pending false) ∧
    ((ClassTask.stop ((ClassTask.stop runningBoth).1.schedStep)).2 = [] ∧
     ((ClassTask.stop runningBoth).2 ++
       (ClassTask.stop ((ClassTask.stop runningBoth).1.schedStep)).2).count
       Event.cancelRequest = 1 ∧
     ((ClassTask.stop runningBoth).2 ++
       (ClassTask.stop ((ClassTask.stop runningBoth).1.schedStep)).2).count
       Event.onStop = (if runningBoth._end_callback.isSome then 1 else 0)) :=
  ⟨rfl, stop_twice_after_cancel_confirmed runningBoth false rfl⟩

/--
C4: from a state with a pending task, `stop()` followed — once the event loop
has confirmed the cancellation, so the handle reports cancelled — by
`start()` submits the entry point again (a new `create_task` call) and stores
a fresh pending handle: the lifecycle is back to running.
-/
theorem restart_after_stop_and_cancel_confirmed (c : ClassTaskState) (b : Bool)
    (h : c._task = some (TaskStatus.pending b)) :
    (ClassTask.start ((ClassTask.stop c).1.schedStep)).2.count
      Event.createTask = 1 ∧
    (ClassTask.start ((ClassTask.stop c).1.schedStep)).1._task =
      some (TaskStatus.pending false) := by
  rcases c with ⟨f, sc, ec, rf, t, lp⟩
  cases sc <;> cases rf <;>
    simp_all [ClassTask.start, ClassTask.startGuard, ClassTask.stop,
      ClassTask.stopGuard, ClassTaskState.schedStep, TaskStatus.cancelledB,
      TaskStatus.requestCancel, TaskStatus.confirmCancel, List.count_append,
      List.count_cons]

/-- C4 witness: restart on a running instance after stop and confirmed
cancellation. -/
theorem restart_after_stop_and_cancel_confirmed_witness :
    runningBoth._task = some (TaskStatus.pending false) ∧
    ((ClassTask.start ((ClassTask.stop runningBoth).1.schedStep)).2.count
       Event.createTask = 1 ∧
     (ClassTask.start ((ClassTask.stop runningBoth).1.schedStep)).1._task =
       some (TaskStatus.pending false)) :=
  ⟨rfl, restart_after_stop_and_cancel_confirmed runningBoth false rfl⟩

/--
C5 counterexample: when the stored task completed normally (done but not
cancelled), `start()` does not create a new handle: its guard checks only
`Task.cancelled()`, which is false for a normal completion, so `start()` is a
no-op and the instance is stuck — contradicting the claim that a finished
(but not cancelled) handle allows restart.
-/
theorem start_blocked_after_normal_completion_cex :
    (ClassTask.start
      { runningBoth with _task := some TaskStatus.doneNormal }).2.count
      Event.createTask = 0 ∧
    ClassTask.start { runningBoth with _task := some TaskStatus.doneNormal } =
      ({ runningBoth with _task := some TaskStatus.doneNormal }, []) := by
  decide

/--
C5 amended: the instance has no terminal state reachable through
cancellation: whenever there is no handle or the handle reports
`cancelled() = true`, `start()` submits the entry point again and stores a
fresh pending handle, so start/stop cycles whose cancellations are confirmed
can be repeated indefinitely.  A task that completed normally, however,
blocks restart (see the counterexample).
-/
theorem start_reusable_after_cancelled (c : ClassTaskState)
    (h : c._task = none ∨ c._task = some TaskStatus.doneCancelled) :
    (ClassTask.start c).2.count Event.createTask = 1 ∧
    (ClassTask.start c).1._task = some (TaskStatus.pending false) := by
  rcases c with ⟨f, sc, ec, rf, t, lp⟩
  cases sc <;> cases rf <;> rcases h with h | h <;>
    simp_all [ClassTask.start, ClassTask.startGuard, TaskStatus.cancelledB,
      List.count_append, List.count_cons]

/-- C5 amended witness: the amended theorem instantiated at a state whose
handle reports cancelled. -/
theorem start_reusable_after_cancelled_witness :
    ({ runningBoth with
        _task := some TaskStatus.doneCancelled : ClassTaskState })._task =
      some TaskStatus.doneCancelled ∧
    ((ClassTask.start
        { runningBoth with _task := some TaskStatus.doneCancelled }).2.count
        Event.createTask = 1 ∧
      (ClassTask.start
        { runningBoth with _task := some TaskStatus.doneCancelled }).1._task =
        some (TaskStatus.pending false)) :=
  ⟨rfl, start_reusable_after_cancelled
    { runningBoth with _task := some TaskStatus.doneCancelled } (Or.inr rfl)⟩

/--
C6: in every `start()` call, every `start_callback` invocation happens
strictly before the task is submitted (no `onStart` event at or after the
first `createTask` event), and when the call proceeds with a callback
present, both happen exactly once; symmetrically, in every `stop()` call
every `end_callback` invocation happens strictly before cancellation is
requested, and when the call proceeds with a callback present, both happen
exactly once.
-/
theorem callbacks_before_submission_and_cancel (c : ClassTaskState) :
    ((ClassTask.start c).2.dropWhile notCreateTask).count Event.onStart = 0 ∧
    ((ClassTask.stop c).2.dropWhile notCancelRequest).count Event.onStop = 0 ∧
    (ClassTask.startGuard c = true → c._start_callback.isSome = true →
      (ClassTask.start c).2.count Event.onStart = 1 ∧
      (ClassTask.start c).2.count Event.createTask = 1) ∧
    (ClassTask.stopGuard c = true → c._end_callback.isSome = true →
      (ClassTask.stop c).2.count Event.onStop = 1 ∧
      (ClassTask.stop c).2.count Event.cancelRequest = 1) := by
  rcases c with ⟨f, sc, ec, rf, t, lp⟩
  rcases t with _ | (b | _ | _) <;> cases sc <;> cases ec <;> cases rf <;>
    simp [ClassTask.start, ClassTask.startGuard, ClassTask.stop,
      ClassTask.stopGuard, TaskStatus.cancelledB, notCreateTask,
      notCancelRequest, List.dropWhile, List.count_append, List.count_cons]

/-- C6 witness: the ordering and the exactly-once counts instantiated on a
proceeding `start()` (fresh instance) and a proceeding `stop()` (running
instance), both with callbacks present. -/
theorem callbacks_before_submission_and_cancel_witness :
    (((ClassTask.start freshBoth).2.dropWhile notCreateTask).count
        Event.onStart = 0 ∧
      (ClassTask.start freshBoth).2.count Event.onStart = 1 ∧
      (ClassTask.start freshBoth).2.count Event.createTask = 1) ∧
    (((ClassTask.stop runningBoth).2.dropWhile notCancelRequest).count
        Event.onStop = 0 ∧
      (ClassTask.stop runningBoth).2.count Event.onStop = 1 ∧
      (ClassTask.stop runningBoth).2.count Event.cancelRequest = 1) :=
  ⟨⟨(callbacks_before_submission_and_cancel freshBoth).1,
    ((callbacks_before_submission_and_cancel freshBoth).2.2.1
      (by decide) (by decide)).1,
    ((callbacks_before_submission_and_cancel freshBoth).2.2.1
      (by decide) (by decide)).2⟩,
   ⟨(callbacks_before_submission_and_cancel runningBoth).2.1,
    ((callbacks_before_submission_and_cancel runningBoth).2.2.2
      (by decide) (by decide)).1,
    ((callbacks_before_submission_and_cancel runningBoth).2.2.2
      (by decide) (by decide)).2⟩⟩

/--
C7: `__aexit__` performs exactly a `stop()` (same resulting state, same
events) and then reports the stored handle's `cancelled()` state at that
point; when no handle was ever created it returns the implicit `None`
(absent, falsy), never `True`.
-/
theorem aexit_stops_then_reports_cancelled (c : ClassTaskState) :
    (ClassTask.aexit c).1 = (ClassTask.stop c).1 ∧
    (ClassTask.aexit c).2.2 = (ClassTask.stop c).2 ∧
    (ClassTask.aexit c).2.1 =
      ((ClassTask.stop c).1._task).map TaskStatus.cancelledB ∧
    (c._task = none → (ClassTask.aexit c).2.1 = none) := by
  rcases c with ⟨f, sc, ec, rf, t, lp⟩
  rcases t with _ | (b | _ | _) <;> cases ec <;>
    simp [ClassTask.aexit, ClassTask.stop, ClassTask.stopGuard,
      TaskStatus.cancelledB, TaskStatus.requestCancel, Option.map]

/-- C7 witness: `__aexit__` on a never-started instance reports `none` and
behaves as its `stop()`. -/
theorem aexit_stops_then_reports_cancelled_witness :
    (ClassTask.aexit freshBoth).1 = (ClassTask.stop freshBoth).1 ∧
    (ClassTask.aexit freshBoth).2.2 = (ClassTask.stop freshBoth).2 ∧
    (ClassTask.aexit freshBoth).2.1 =
      ((ClassTask.stop freshBoth).1._task).map TaskStatus.cancelledB ∧
    (ClassTask.aexit freshBoth).2.1 = none :=
  ⟨(aexit_stops_then_reports_cancelled freshBoth).1,
   (aexit_stops_then_reports_cancelled freshBoth).2.1,
   (aexit_stops_then_reports_cancelled freshBoth).2.2.1,
   (aexit_stops_then_reports_cancelled freshBoth).2.2.2 rfl⟩

/--
C10: `start()`, `stop()`, `__aenter__` and `__aexit__` never modify the
entry point, the callbacks, the `run_forever` flag or the stored loop
reference: the only field any of them mutates is `_task`.
-/
theorem methods_mutate_only_task (c : ClassTaskState) :
    configEq (ClassTask.start c).1 c ∧
    configEq (ClassTask.stop c).1 c ∧
    configEq (ClassTask.aenter c).1 c ∧
    configEq (ClassTask.aexit c).1 c := by
  rcases c with ⟨f, sc, ec, rf, t, lp⟩
  refine ⟨?_, ?_, ?_, ?_⟩ <;>
    simp [ClassTask.start, ClassTask.stop, ClassTask.aenter, ClassTask.aexit,
      configEq] <;>
    split <;> simp

end Toolbox
